import Mathlib

/-!
# S0ix power-mode transition driver

A shallow embedding of `s0ix_driver.c`: the statistics record `s_stats`, the two
power-management callbacks, the read-only sysfs/procfs views, and the module
initialisation and exit paths together with the kernel registrations they make.

Conventions of the embedding.

* `unsigned long` and `u64` are 64-bit words (the driver divides a `u64` by an
  `unsigned long` with the plain `/` operator, which the kernel only links on LP64
  targets). They are natural numbers; every `++` and `+=` is reduced modulo `2 ^ 64`.
* `ktime_t` is a signed 64-bit count of nanoseconds, an integer; `ktime_sub` wraps to
  the signed 64-bit range.
* `s0ix_device_lock` serialises every access to `s_stats`, so a run of the driver is a
  sequence of whole callback invocations; the value returned by `ktime_get()` inside a
  callback is a parameter of that callback.
-/

namespace S0ix

/-! ## Statistics record -/

/-- The record `struct s0ix_stats`. -/
structure s0ix_stats where
  /-- Field `unsigned long suspend_count`. -/
  suspend_count : Nat
  /-- Field `unsigned long resume_count`. -/
  resume_count : Nat
  /-- Field `u64 total_suspend_time_ms`. -/
  total_suspend_time_ms : Nat
  /-- Field `ktime_t last_suspend_time`. -/
  last_suspend_time : Int
  deriving DecidableEq, Repr

/-- The state left by `memset(&s_stats, 0, sizeof(s_stats))` in `s0ix_driver_init`. -/
def s_stats_zeroed : s0ix_stats :=
  { suspend_count := 0, resume_count := 0, total_suspend_time_ms := 0, last_suspend_time := 0 }

/-! ## Kernel time helpers -/

/-- Reduction of an integer to the signed 64-bit range (two's complement). -/
def s64_wrap (x : Int) : Int := (x + 2 ^ 63) % 2 ^ 64 - 2 ^ 63

/-- Conversion of a signed 64-bit value to `u64`, as done by the assignment to
`u64 duration_ms`. -/
def to_u64 (x : Int) : Nat := (x % 2 ^ 64).toNat

/-- The kernel constant `NSEC_PER_MSEC`. -/
def NSEC_PER_MSEC : Int := 1000000

/-- The kernel helper `ktime_sub(lhs, rhs)`: signed 64-bit subtraction. -/
def ktime_sub (lhs rhs : Int) : Int := s64_wrap (lhs - rhs)

/-- The kernel helper `ktime_to_ms(kt)`: signed division by `NSEC_PER_MSEC`, rounding
towards zero as C division does. -/
def ktime_to_ms (kt : Int) : Int := Int.tdiv kt NSEC_PER_MSEC

/-! ## Power-management callbacks -/

/-- The callback `s0ix_device_suspend`; `now` is the value of `ktime_get()`. -/
def s0ix_device_suspend (now : Int) (s : s0ix_stats) : s0ix_stats :=
  { s with
    suspend_count := (s.suspend_count + 1) % 2 ^ 64
    last_suspend_time := now }

/-- The local `duration_ms` of `s0ix_device_resume` at the point where it is added to
the total and logged: initialised to `0`, overwritten only when `last_suspend_time` is
non-zero. -/
def resume_duration_ms (now : Int) (s : s0ix_stats) : Nat :=
  if s.last_suspend_time ≠ 0 then
    to_u64 (ktime_to_ms (ktime_sub now s.last_suspend_time))
  else 0

/-- The callback `s0ix_device_resume`; `now` is the value of `ktime_get()`. -/
def s0ix_device_resume (now : Int) (s : s0ix_stats) : s0ix_stats :=
  { s with
    resume_count := (s.resume_count + 1) % 2 ^ 64
    total_suspend_time_ms := (s.total_suspend_time_ms + resume_duration_ms now s) % 2 ^ 64 }

/-- One delivery of a callback of `s0ix_pm_ops`, with the clock reading it observes. -/
inductive pm_call where
  /-- The `.suspend` callback. -/
  | suspend (now : Int)
  /-- The `.resume` callback. -/
  | resume (now : Int)
  deriving DecidableEq, Repr

/-- Dispatch through `s0ix_pm_ops`. -/
def s0ix_pm_ops : pm_call → s0ix_stats → s0ix_stats
  | .suspend now, s => s0ix_device_suspend now s
  | .resume now, s => s0ix_device_resume now s

/-- The state after a sequence of callback deliveries, oldest first. -/
def run_calls (calls : List pm_call) (s : s0ix_stats) : s0ix_stats :=
  calls.foldl (fun st c => s0ix_pm_ops c st) s

/-- Whether a delivery is a suspend. -/
def pm_call.is_suspend : pm_call → Bool
  | .suspend _ => true
  | .resume _ => false

/-- Whether a delivery is a resume. -/
def pm_call.is_resume : pm_call → Bool
  | .suspend _ => false
  | .resume _ => true

/-- The clock reading observed by a delivery. -/
def pm_call.now : pm_call → Int
  | .suspend now => now
  | .resume now => now

/-! ## Read-only views -/

/-- Buffer contents written by `suspend_count_show` (format `"%lu\n"`). -/
def suspend_count_show (s : s0ix_stats) : String :=
  toString s.suspend_count ++ "\n"

/-- Buffer contents written by `resume_count_show` (format `"%lu\n"`). -/
def resume_count_show (s : s0ix_stats) : String :=
  toString s.resume_count ++ "\n"

/-- Buffer contents written by `total_suspend_time_show` (format `"%llu\n"`). -/
def total_suspend_time_show (s : s0ix_stats) : String :=
  toString s.total_suspend_time_ms ++ "\n"

/-- The four locals of `s0ix_stats_show` after its critical section. -/
structure stats_snapshot where
  /-- Local `suspend_count`. -/
  suspend_count : Nat
  /-- Local `resume_count`. -/
  resume_count : Nat
  /-- Local `total_suspend_time_ms`. -/
  total_suspend_time_ms : Nat
  /-- Local `avg_suspend_time`. -/
  avg_suspend_time : Nat
  deriving DecidableEq, Repr

/-- The critical section of `s0ix_stats_show`: copy three fields, derive the average. -/
def s0ix_stats_snapshot (s : s0ix_stats) : stats_snapshot :=
  let suspend_count := s.suspend_count
  let resume_count := s.resume_count
  let total_suspend_time_ms := s.total_suspend_time_ms
  let avg_suspend_time :=
    if resume_count ≠ 0 then total_suspend_time_ms / resume_count else 0
  { suspend_count := suspend_count
    resume_count := resume_count
    total_suspend_time_ms := total_suspend_time_ms
    avg_suspend_time := avg_suspend_time }

/-- A pointer value as the driver tells them apart: `NULL`, an error pointer
`ERR_PTR(-(errno + 1))` (the `MAX_ERRNO = 4095` error codes `-1 … -4095`), or the address
of an object. -/
inductive kptr where
  /-- The pointer `NULL`. -/
  | null
  /-- The pointer `ERR_PTR(-(errno + 1))`. -/
  | err (errno : Fin 4095)
  /-- The address of a kernel object. -/
  | obj (id : Nat)
  deriving DecidableEq, Repr

/-- The kernel predicate `IS_ERR(ptr)`. -/
def IS_ERR : kptr → Bool
  | .err _ => true
  | _ => false

/-- The kernel helper `PTR_ERR(ptr)`: the pointer read as a signed integer. -/
def PTR_ERR : kptr → Int
  | .null => 0
  | .err errno => -((errno.val : Int) + 1)
  | .obj id => id

/-- The kernel error number `ENOMEM`. -/
def ENOMEM : Int := 12

/-- Outcome of `platform_device_register_simple`: an error pointer or a new device. -/
inductive device_outcome where
  /-- Failure, returning `ERR_PTR(-(errno + 1))`. -/
  | failed (errno : Fin 4095)
  /-- Success, returning the device at address `id`. -/
  | registered (id : Nat)
  deriving DecidableEq, Repr

/-- Outcome of `proc_create`: `NULL` or a new entry. -/
inductive proc_outcome where
  /-- Failure, returning `NULL`. -/
  | failed
  /-- Success, returning the entry at address `id`. -/
  | created (id : Nat)
  deriving DecidableEq, Repr

/-- The pointer returned by `platform_device_register_simple`. -/
def device_outcome.ptr : device_outcome → kptr
  | .failed errno => .err errno
  | .registered id => .obj id

/-- The pointer returned by `proc_create`. -/
def proc_outcome.ptr : proc_outcome → kptr
  | .failed => .null
  | .created id => .obj id

/-- What the kernel answers to each of the four registration requests of
`s0ix_driver_init`; an answer is only consulted if init reaches that request. -/
structure kernel_outcomes where
  /-- Return value of `platform_driver_register` (`0` on success). -/
  driver_register : Int
  /-- Result of `platform_device_register_simple`. -/
  device_register : device_outcome
  /-- Return value of `sysfs_create_group` (`0` on success). -/
  sysfs_create : Int
  /-- Result of `proc_create`. -/
  proc_create : proc_outcome
  deriving DecidableEq, Repr

/-- Whether all four requests succeed. -/
def kernel_outcomes.all_succeed (env : kernel_outcomes) : Bool :=
  env.driver_register == 0
    && (match env.device_register with
        | .registered _ => true
        | .failed _ => false)
    && env.sysfs_create == 0
    && (match env.proc_create with
        | .created _ => true
        | .failed => false)

/-- A call the module makes into the kernel, with the arguments that matter and, for a
registration request, the kernel's answer. -/
inductive kcall where
  /-- The request `platform_driver_register(&s0ix_platform_driver)` returning `ret`. -/
  | platform_driver_register (ret : Int)
  /-- The request `platform_device_register_simple(...)` returning `result`. -/
  | platform_device_register_simple (result : kptr)
  /-- The request `sysfs_create_group(&dev->dev.kobj, &s0ix_attr_group)` returning `ret`. -/
  | sysfs_create_group (dev : kptr) (ret : Int)
  /-- The request `proc_create(PROC_STATS_NAME, ...)` returning `result`. -/
  | proc_create (result : kptr)
  /-- The release `proc_remove(entry)`. -/
  | proc_remove (entry : kptr)
  /-- The release `sysfs_remove_group(&dev->dev.kobj, &s0ix_attr_group)`. -/
  | sysfs_remove_group (dev : kptr)
  /-- The release `platform_device_unregister(dev)`. -/
  | platform_device_unregister (dev : kptr)
  /-- The release `platform_driver_unregister(&s0ix_platform_driver)`. -/
  | platform_driver_unregister
  deriving DecidableEq, Repr

/-- The four things the module registers. -/
inductive resource where
  /-- The platform driver. -/
  | driver
  /-- The platform device. -/
  | device
  /-- The sysfs attribute group. -/
  | sysfs_group
  /-- The procfs entry. -/
  | proc_entry
  deriving DecidableEq, Repr

/-- The resource a call registered, if it is a registration request that succeeded. -/
def kcall.acquired : kcall → Option resource
  | .platform_driver_register ret => if ret = 0 then some .driver else none
  | .platform_device_register_simple result => if IS_ERR result then none else some .device
  | .sysfs_create_group _ ret => if ret = 0 then some .sysfs_group else none
  | .proc_create result => if result = .null then none else some .proc_entry
  | _ => none

/-- The resource a call releases, if it is a release. -/
def kcall.released : kcall → Option resource
  | .proc_remove _ => some .proc_entry
  | .sysfs_remove_group _ => some .sysfs_group
  | .platform_device_unregister _ => some .device
  | .platform_driver_unregister => some .driver
  | _ => none

/-- What the kernel currently holds on behalf of the module. -/
structure registry where
  /-- Whether the platform driver is registered. -/
  driver : Bool
  /-- The registered platform device, if any. -/
  device : Option Nat
  /-- Whether the attribute group exists on the device. -/
  sysfs_group : Bool
  /-- The procfs entry, if any. -/
  proc_entry : Option Nat
  deriving DecidableEq, Repr

/-- Nothing registered. -/
def registry.empty : registry :=
  { driver := false, device := none, sysfs_group := false, proc_entry := none }

/-- Effect of one call on the kernel's registry. The result is `none` when the call is a
misuse: a release of something that is not registered, a call made through a pointer that
is not the registered device, or an answer the kernel cannot give. -/
def registry.step (k : registry) : kcall → Option registry
  | .platform_driver_register ret =>
    if k.driver then none
    else some (if ret = 0 then { k with driver := true } else k)
  | .platform_device_register_simple result =>
    match result with
    | .obj id => if k.device.isSome then none else some { k with device := some id }
    | .err _ => some k
    | .null => none
  | .sysfs_create_group dev ret =>
    match dev with
    | .obj id =>
      if k.device = some id ∧ k.sysfs_group = false then
        some (if ret = 0 then { k with sysfs_group := true } else k)
      else none
    | _ => none
  | .proc_create result =>
    match result with
    | .obj id => if k.proc_entry.isSome then none else some { k with proc_entry := some id }
    | .null => some k
    | .err _ => none
  | .proc_remove entry =>
    match entry with
    | .obj id => if k.proc_entry = some id then some { k with proc_entry := none } else none
    | _ => none
  | .sysfs_remove_group dev =>
    match dev with
    | .obj id =>
      if k.device = some id ∧ k.sysfs_group = true then some { k with sysfs_group := false }
      else none
    | _ => none
  | .platform_device_unregister dev =>
    match dev with
    | .obj id =>
      if k.device = some id then some { k with device := none, sysfs_group := false }
      else none
    | _ => none
  | .platform_driver_unregister =>
    if k.driver then some { k with driver := false } else none

/-- Effect of a sequence of calls, oldest first; `none` as soon as one is a misuse. -/
def registry.replay (k : registry) : List kcall → Option registry
  | [] => some k
  | c :: cs =>
    match k.step c with
    | some k' => k'.replay cs
    | none => none

/-- The module's file-scope variables. -/
structure module_globals where
  /-- The variable `s_stats`. -/
  s_stats : s0ix_stats
  /-- The variable `s0ix_platform_device`. -/
  s0ix_platform_device : kptr
  /-- The variable `s0ix_proc_entry`. -/
  s0ix_proc_entry : kptr
  deriving DecidableEq, Repr

/-- The file-scope variables of a freshly loaded module: static storage is zeroed. -/
def module_globals.loaded : module_globals :=
  { s_stats := s_stats_zeroed, s0ix_platform_device := .null, s0ix_proc_entry := .null }

/-- Result of `s0ix_driver_init`: its return value, the variables it leaves, and the
kernel calls it made, oldest first. -/
structure init_result where
  /-- The value returned to the module loader. -/
  ret : Int
  /-- The file-scope variables on return. -/
  globals : module_globals
  /-- The kernel calls made, oldest first. -/
  calls : List kcall
  deriving DecidableEq, Repr

/-- The function `s0ix_driver_init`. -/
def s0ix_driver_init (env : kernel_outcomes) (g : module_globals) : init_result :=
  let g := { g with s_stats := s_stats_zeroed }
  let ret := env.driver_register
  if ret ≠ 0 then
    { ret := ret, globals := g, calls := [.platform_driver_register ret] }
  else
  let g := { g with s0ix_platform_device := env.device_register.ptr }
  if IS_ERR g.s0ix_platform_device then
    { ret := PTR_ERR g.s0ix_platform_device
      globals := g
      calls := [.platform_driver_register ret,
                .platform_device_register_simple g.s0ix_platform_device,
                .platform_driver_unregister] }
  else
  let ret3 := env.sysfs_create
  if ret3 ≠ 0 then
    { ret := ret3
      globals := g
      calls := [.platform_driver_register ret,
                .platform_device_register_simple g.s0ix_platform_device,
                .sysfs_create_group g.s0ix_platform_device ret3,
                .platform_device_unregister g.s0ix_platform_device,
                .platform_driver_unregister] }
  else
  let g := { g with s0ix_proc_entry := env.proc_create.ptr }
  if g.s0ix_proc_entry = .null then
    { ret := -ENOMEM
      globals := g
      calls := [.platform_driver_register ret,
                .platform_device_register_simple g.s0ix_platform_device,
                .sysfs_create_group g.s0ix_platform_device ret3,
                .proc_create g.s0ix_proc_entry,
                .sysfs_remove_group g.s0ix_platform_device,
                .platform_device_unregister g.s0ix_platform_device,
                .platform_driver_unregister] }
  else
    { ret := 0
      globals := g
      calls := [.platform_driver_register ret,
                .platform_device_register_simple g.s0ix_platform_device,
                .sysfs_create_group g.s0ix_platform_device ret3,
                .proc_create g.s0ix_proc_entry] }

/-- The function `s0ix_driver_exit`: the kernel calls it makes, oldest first. -/
def s0ix_driver_exit (g : module_globals) : List kcall :=
  (if g.s0ix_proc_entry ≠ .null then [.proc_remove g.s0ix_proc_entry] else [])
  ++ (if g.s0ix_platform_device ≠ .null then
        [.sysfs_remove_group g.s0ix_platform_device] else [])
  ++ (if g.s0ix_platform_device ≠ .null then
        [.platform_device_unregister g.s0ix_platform_device] else [])
  ++ [.platform_driver_unregister]

/-! ## Steps performed around `s0ix_device_lock` -/

/-- One step of a callback or read function, as far as the lock is concerned. -/
inductive action where
  /-- The call `mutex_lock(&s0ix_device_lock)`. -/
  | mutex_lock
  /-- The call `mutex_unlock(&s0ix_device_lock)`. -/
  | mutex_unlock
  /-- A read of a field of `s_stats`. -/
  | field_read
  /-- An update of a field of `s_stats`. -/
  | field_update
  /-- The timestamp read `ktime_get()`. -/
  | ktime_get
  /-- Arithmetic on local values (`ktime_sub`, `ktime_to_ms`, a division). -/
  | arithmetic
  /-- Formatting into the caller's buffer with `scnprintf`. -/
  | scnprintf
  /-- Formatting into the seq file with `seq_printf`. -/
  | seq_printf
  /-- A kernel log line written with `pr_info`. -/
  | pr_info
  /-- The call `msleep(ms)`, which puts the caller to sleep. -/
  | msleep (ms : Nat)
  deriving DecidableEq, Repr

/-- Whether a step sleeps or otherwise blocks the caller. -/
def action.blocks : action → Bool
  | .msleep _ => true
  | _ => false

/-- Steps of `suspend_count_show`. -/
def suspend_count_show_actions : List action :=
  [.mutex_lock, .field_read, .scnprintf, .mutex_unlock]

/-- Steps of `resume_count_show`. -/
def resume_count_show_actions : List action :=
  [.mutex_lock, .field_read, .scnprintf, .mutex_unlock]

/-- Steps of `avg_suspend_time_show`; the division runs when `resume_count` is non-zero. -/
def avg_suspend_time_show_actions (s : s0ix_stats) : List action :=
  [.mutex_lock, .field_read]
  ++ (if s.resume_count ≠ 0 then [.field_read, .field_read, .arithmetic] else [])
  ++ [.scnprintf, .mutex_unlock]

/-- Steps of `total_suspend_time_show`. -/
def total_suspend_time_show_actions : List action :=
  [.mutex_lock, .field_read, .scnprintf, .mutex_unlock]

/-- Steps of `s0ix_device_suspend`. -/
def s0ix_device_suspend_actions : List action :=
  [.mutex_lock, .field_update, .ktime_get, .field_update, .pr_info, .mutex_unlock]

/-- Steps of `s0ix_device_resume`; the duration is computed when `last_suspend_time` is
non-zero. -/
def s0ix_device_resume_actions (s : s0ix_stats) : List action :=
  [.mutex_lock, .field_update, .ktime_get, .field_read]
  ++ (if s.last_suspend_time ≠ 0 then [.field_read, .arithmetic] else [])
  ++ [.field_update, .pr_info, .msleep 11000, .pr_info, .mutex_unlock]

/-- Steps of `s0ix_stats_show`; the division runs when `resume_count` is non-zero. -/
def s0ix_stats_show_actions (s : s0ix_stats) : List action :=
  [.mutex_lock, .field_read, .field_read, .field_read]
  ++ (if s.resume_count ≠ 0 then [.arithmetic] else [])
  ++ [.mutex_unlock, .seq_printf]

/-- The steps performed while the lock is held, given whether it is held at the start. -/
def steps_under_lock : Bool → List action → List action
  | _, [] => []
  | _, .mutex_lock :: rest => steps_under_lock true rest
  | _, .mutex_unlock :: rest => steps_under_lock false rest
  | true, a :: rest => a :: steps_under_lock true rest
  | false, _ :: rest => steps_under_lock false rest

/-- The lock is taken exactly once, released exactly once, and the release comes after
the acquisition and before the end. -/
def locks_once (tr : List action) : Bool :=
  tr.count .mutex_lock == 1 && tr.count .mutex_unlock == 1
    && (tr.filter (fun a => a == .mutex_lock || a == .mutex_unlock)
        == [.mutex_lock, .mutex_unlock])

/-- No step performed while the lock is held sleeps or blocks. -/
def never_blocks_under_lock (tr : List action) : Bool :=
  (steps_under_lock false tr).all (fun a => !a.blocks)

/-! ## Arithmetic of the time helpers -/

theorem s64_wrap_of_range (x : Int) (h0 : -(2 ^ 63) ≤ x) (h1 : x < 2 ^ 63) : s64_wrap x = x := by
  unfold s64_wrap; omega

theorem to_u64_of_nonneg (x : Int) (h0 : 0 ≤ x) (h1 : x < 2 ^ 64) : to_u64 x = x.toNat := by
  unfold to_u64
  rw [Int.emod_eq_of_lt h0 h1]

/-- With a clock that has not gone backwards, the duration is the elapsed time in whole
milliseconds. -/
theorem duration_forward (last now : Int) (h0 : 0 ≤ last) (h1 : last ≤ now)
    (h2 : now < 2 ^ 63) :
    to_u64 (ktime_to_ms (ktime_sub now last)) = ((now - last) / 1000000).toNat := by
  have hs : ktime_sub now last = now - last := by
    unfold ktime_sub; exact s64_wrap_of_range _ (by omega) (by omega)
  have hd : ktime_to_ms (now - last) = (now - last) / 1000000 := by
    unfold ktime_to_ms NSEC_PER_MSEC
    exact Int.tdiv_eq_ediv (by omega) (by norm_num)
  rw [hs, hd]
  exact to_u64_of_nonneg _ (by omega) (by omega)

/-- With a clock reading earlier than `last_suspend_time`, the signed millisecond
difference is the negated whole-millisecond gap. -/
theorem ktime_to_ms_backward (last now : Int) (h0 : 0 ≤ now) (h1 : now < last)
    (h2 : last < 2 ^ 63) :
    ktime_to_ms (ktime_sub now last) = -((last - now) / 1000000) := by
  have hs : ktime_sub now last = -(last - now) := by
    unfold ktime_sub; rw [s64_wrap_of_range _ (by omega) (by omega)]; ring
  rw [hs]
  unfold ktime_to_ms NSEC_PER_MSEC
  rw [Int.neg_tdiv, Int.tdiv_eq_ediv (by omega) (by norm_num)]

/-! ## Counters along a run -/

theorem run_calls_cons (c : pm_call) (cs : List pm_call) (s : s0ix_stats) :
    run_calls (c :: cs) s = run_calls cs (s0ix_pm_ops c s) := rfl

theorem run_calls_suspend_count (calls : List pm_call) (s : s0ix_stats)
    (h : s.suspend_count < 2 ^ 64) :
    (run_calls calls s).suspend_count
      = (s.suspend_count + calls.countP pm_call.is_suspend) % 2 ^ 64 := by
  induction calls generalizing s with
  | nil => simp [run_calls]; omega
  | cons c cs ih =>
    rw [run_calls_cons]
    cases c with
    | suspend now =>
      have hlt : (s0ix_pm_ops (.suspend now) s).suspend_count < 2 ^ 64 := by
        simp only [s0ix_pm_ops, s0ix_device_suspend]; omega
      rw [ih _ hlt]
      simp only [s0ix_pm_ops, s0ix_device_suspend, List.countP_cons, pm_call.is_suspend]
      simp only [if_true]
      omega
    | resume now =>
      have hlt : (s0ix_pm_ops (.resume now) s).suspend_count < 2 ^ 64 := by
        simp only [s0ix_pm_ops, s0ix_device_resume]; omega
      rw [ih _ hlt]
      simp [s0ix_pm_ops, s0ix_device_resume, List.countP_cons, pm_call.is_suspend]

theorem run_calls_resume_count (calls : List pm_call) (s : s0ix_stats)
    (h : s.resume_count < 2 ^ 64) :
    (run_calls calls s).resume_count
      = (s.resume_count + calls.countP pm_call.is_resume) % 2 ^ 64 := by
  induction calls generalizing s with
  | nil => simp [run_calls]; omega
  | cons c cs ih =>
    rw [run_calls_cons]
    cases c with
    | suspend now =>
      have hlt : (s0ix_pm_ops (.suspend now) s).resume_count < 2 ^ 64 := by
        simp only [s0ix_pm_ops, s0ix_device_suspend]; omega
      rw [ih _ hlt]
      simp [s0ix_pm_ops, s0ix_device_suspend, List.countP_cons, pm_call.is_resume]
    | resume now =>
      have hlt : (s0ix_pm_ops (.resume now) s).resume_count < 2 ^ 64 := by
        simp only [s0ix_pm_ops, s0ix_device_resume]; omega
      rw [ih _ hlt]
      simp only [s0ix_pm_ops, s0ix_device_resume, List.countP_cons, pm_call.is_resume]
      simp only [if_true]
      omega


/-! ## Claims on the counters and the average -/

/-- C1 (as stated, refuted): after `2 ^ 64` deliveries of the suspend callback from the
zeroed state, `suspend_count` has wrapped to `0` and no longer equals the number of
calls. -/
theorem c1_counterexample_suspend_count_wraps :
    (run_calls (List.replicate (2 ^ 64) (pm_call.suspend 0)) s_stats_zeroed).suspend_count = 0
    ∧ (List.replicate (2 ^ 64) (pm_call.suspend 0)).countP pm_call.is_suspend = 2 ^ 64
    ∧ (run_calls (List.replicate (2 ^ 64) (pm_call.suspend 0)) s_stats_zeroed).suspend_count
        ≠ (List.replicate (2 ^ 64) (pm_call.suspend 0)).countP pm_call.is_suspend := by
  have hc : (List.replicate (2 ^ 64) (pm_call.suspend 0)).countP pm_call.is_suspend = 2 ^ 64 := by
    rw [List.countP_replicate]; rfl
  have hr := run_calls_suspend_count (List.replicate (2 ^ 64) (pm_call.suspend 0))
    s_stats_zeroed (by simp [s_stats_zeroed])
  rw [hc] at hr
  have h0 : (run_calls (List.replicate (2 ^ 64) (pm_call.suspend 0)) s_stats_zeroed).suspend_count
      = 0 := by
    rw [hr]; simp [s_stats_zeroed]
  refine ⟨h0, hc, ?_⟩
  rw [h0, hc]
  norm_num

/-- C1 (amended): for every finite sequence of suspend and resume deliveries applied to
the zeroed statistics, with any clock readings, `suspend_count` is the number of suspend
calls modulo `2 ^ 64` and `resume_count` is the number of resume calls modulo `2 ^ 64`;
each is the exact number of calls whenever that number is below `2 ^ 64`. -/
theorem c1_counters_count_calls (calls : List pm_call) :
    ((run_calls calls s_stats_zeroed).suspend_count
        = calls.countP pm_call.is_suspend % 2 ^ 64
      ∧ (run_calls calls s_stats_zeroed).resume_count
        = calls.countP pm_call.is_resume % 2 ^ 64)
    ∧ (calls.countP pm_call.is_suspend < 2 ^ 64 →
        (run_calls calls s_stats_zeroed).suspend_count = calls.countP pm_call.is_suspend)
    ∧ (calls.countP pm_call.is_resume < 2 ^ 64 →
        (run_calls calls s_stats_zeroed).resume_count = calls.countP pm_call.is_resume) := by
  have hs : (run_calls calls s_stats_zeroed).suspend_count
      = calls.countP pm_call.is_suspend % 2 ^ 64 := by
    rw [run_calls_suspend_count calls s_stats_zeroed (by simp [s_stats_zeroed])]
    simp [s_stats_zeroed]
  have hr : (run_calls calls s_stats_zeroed).resume_count
      = calls.countP pm_call.is_resume % 2 ^ 64 := by
    rw [run_calls_resume_count calls s_stats_zeroed (by simp [s_stats_zeroed])]
    simp [s_stats_zeroed]
  refine ⟨⟨hs, hr⟩, fun h => ?_, fun h => ?_⟩
  · rw [hs, Nat.mod_eq_of_lt h]
  · rw [hr, Nat.mod_eq_of_lt h]

/-- C1 (amended), instance: two suspends interleaved with three resumes are counted as
two and three. -/
theorem c1_counters_count_calls_witness :
    (run_calls [.resume 7, .suspend 10, .resume 20, .suspend 30, .resume 40]
        s_stats_zeroed).suspend_count = 2
    ∧ (run_calls [.resume 7, .suspend 10, .resume 20, .suspend 30, .resume 40]
        s_stats_zeroed).resume_count = 3 :=
  ⟨(c1_counters_count_calls
      [.resume 7, .suspend 10, .resume 20, .suspend 30, .resume 40]).2.1 (by decide),
   (c1_counters_count_calls
      [.resume 7, .suspend 10, .resume 20, .suspend 30, .resume 40]).2.2 (by decide)⟩

/-- A run made of resume deliveries only leaves the zeroed record with no suspend
timestamp, no suspend counted and an empty total. -/
theorem run_resumes_only (nows : List Int) (s : s0ix_stats)
    (h0 : s.last_suspend_time = 0) (h1 : s.total_suspend_time_ms = 0)
    (h2 : s.suspend_count = 0) :
    (run_calls (nows.map pm_call.resume) s).last_suspend_time = 0
    ∧ (run_calls (nows.map pm_call.resume) s).total_suspend_time_ms = 0
    ∧ (run_calls (nows.map pm_call.resume) s).suspend_count = 0 := by
  induction nows generalizing s with
  | nil => exact ⟨h0, h1, h2⟩
  | cons n ns ih =>
    rw [List.map_cons, run_calls_cons]
    apply ih
    · simp [s0ix_pm_ops, s0ix_device_resume, h0]
    · simp [s0ix_pm_ops, s0ix_device_resume, resume_duration_ms, h0, h1]
    · simp [s0ix_pm_ops, s0ix_device_resume, h2]

/-- C6: on the zeroed statistics, a resume at any clock reading computes a duration of
`0`, makes `resume_count` equal to `1`, leaves `total_suspend_time_ms` at `0` and
`suspend_count` at `0`; and the same holds after any number of earlier resumes with no
suspend ever made: duration `0`, total unchanged, `suspend_count` still `0`,
`resume_count` advanced by one (modulo `2 ^ 64`). -/
theorem c6_resume_without_suspend (nows : List Int) (now : Int) :
    (resume_duration_ms now s_stats_zeroed = 0
      ∧ (s0ix_device_resume now s_stats_zeroed).resume_count = 1
      ∧ (s0ix_device_resume now s_stats_zeroed).total_suspend_time_ms = 0
      ∧ (s0ix_device_resume now s_stats_zeroed).suspend_count = 0)
    ∧ resume_duration_ms now (run_calls (nows.map pm_call.resume) s_stats_zeroed) = 0
    ∧ (s0ix_device_resume now
          (run_calls (nows.map pm_call.resume) s_stats_zeroed)).total_suspend_time_ms
        = (run_calls (nows.map pm_call.resume) s_stats_zeroed).total_suspend_time_ms
    ∧ (s0ix_device_resume now
          (run_calls (nows.map pm_call.resume) s_stats_zeroed)).suspend_count = 0
    ∧ (s0ix_device_resume now
          (run_calls (nows.map pm_call.resume) s_stats_zeroed)).resume_count
        = ((run_calls (nows.map pm_call.resume) s_stats_zeroed).resume_count + 1) % 2 ^ 64 := by
  obtain ⟨hl, ht, hs⟩ := run_resumes_only nows s_stats_zeroed rfl rfl rfl
  refine ⟨⟨?_, ?_, ?_, ?_⟩, ?_, ?_, ?_, ?_⟩
  · simp [resume_duration_ms, s_stats_zeroed]
  · simp [s0ix_device_resume, s_stats_zeroed]
  · simp [s0ix_device_resume, resume_duration_ms, s_stats_zeroed]
  · simp [s0ix_device_resume, s_stats_zeroed]
  · simp [resume_duration_ms, hl]
  · simp [s0ix_device_resume, resume_duration_ms, hl, ht]
  · simp [s0ix_device_resume, hs]
  · simp [s0ix_device_resume]

/-- C2 (as stated, refuted): a suspend at clock reading `0` followed by a resume 50 ms
later yields the snapshot `{1, 1, 0, 0}`, not `{1, 1, 50, 50}`: the reading `0` stored in
`last_suspend_time` is taken for "no suspend recorded". -/
theorem c2_counterexample_suspend_at_time_zero :
    s0ix_stats_snapshot
        (run_calls [.suspend 0, .resume (0 + 50 * NSEC_PER_MSEC)] s_stats_zeroed)
      = { suspend_count := 1, resume_count := 1, total_suspend_time_ms := 0,
          avg_suspend_time := 0 }
    ∧ s0ix_stats_snapshot
        (run_calls [.suspend 0, .resume (0 + 50 * NSEC_PER_MSEC)] s_stats_zeroed)
      ≠ { suspend_count := 1, resume_count := 1, total_suspend_time_ms := 50,
          avg_suspend_time := 50 } := by
  constructor <;> decide

/-- C2 (amended): for every non-zero clock reading `t` and every delay of `d` whole
milliseconds such that `t + d` ms is still a signed 64-bit nanosecond count, a suspend at
`t` followed by a resume at `t + d` ms, from the zeroed statistics, gives the snapshot
`{suspend_count: 1, resume_count: 1, total: d, average: d}`. -/
theorem c2_one_cycle_snapshot (t : Int) (d : Nat) (ht : 0 < t)
    (hd : t + d * 1000000 < 2 ^ 63) :
    s0ix_stats_snapshot
        (run_calls [.suspend t, .resume (t + d * NSEC_PER_MSEC)] s_stats_zeroed)
      = { suspend_count := 1, resume_count := 1, total_suspend_time_ms := d,
          avg_suspend_time := d } := by
  have hdur : to_u64 (ktime_to_ms (ktime_sub (t + d * 1000000) t)) = d := by
    rw [duration_forward t (t + d * 1000000) (by omega) (by omega) hd]
    have : (t + (d : Int) * 1000000 - t) / 1000000 = d := by omega
    rw [this]; simp
  have hd64 : d < 2 ^ 64 := by omega
  have ht0 : t ≠ 0 := by omega
  simp only [run_calls, List.foldl, s0ix_pm_ops, s0ix_device_suspend, s0ix_device_resume,
    resume_duration_ms, s_stats_zeroed, s0ix_stats_snapshot, NSEC_PER_MSEC]
  simp [ht0, hdur]
  omega

/-- C2 (amended), instance: the 50 ms scenario of the specification, started at clock
reading 1000 ns. -/
theorem c2_one_cycle_snapshot_witness :
    s0ix_stats_snapshot
        (run_calls [.suspend 1000, .resume (1000 + (50 : Nat) * NSEC_PER_MSEC)] s_stats_zeroed)
      = { suspend_count := 1, resume_count := 1, total_suspend_time_ms := 50,
          avg_suspend_time := 50 } :=
  c2_one_cycle_snapshot 1000 50 (by decide) (by decide)


/-- C4 (as stated, refuted): after a suspend at 5 ms and a resume at 10 ms the total is
5 ms; a further resume whose clock reading is 3 ms, earlier than the recorded suspend
time, lowers the total to 3 ms. Likewise a total that has reached `2 ^ 64 - 1` wraps to
`1` on a resume read 2 ms after the recorded suspend time. -/
theorem c4_counterexample_total_decreases :
    (run_calls [.suspend 5000000, .resume 10000000] s_stats_zeroed).total_suspend_time_ms = 5
    ∧ (s0ix_pm_ops (.resume 3000000)
        (run_calls [.suspend 5000000, .resume 10000000] s_stats_zeroed)).total_suspend_time_ms
        = 3
    ∧ ¬ ((run_calls [.suspend 5000000, .resume 10000000] s_stats_zeroed).total_suspend_time_ms
        ≤ (s0ix_pm_ops (.resume 3000000)
            (run_calls [.suspend 5000000, .resume 10000000]
              s_stats_zeroed)).total_suspend_time_ms)
    ∧ (run_calls [.suspend 1000000, .resume 0] s_stats_zeroed).total_suspend_time_ms
        = 2 ^ 64 - 1
    ∧ (s0ix_pm_ops (.resume 3000000)
        (run_calls [.suspend 1000000, .resume 0] s_stats_zeroed)).total_suspend_time_ms = 1 := by
  refine ⟨by decide, by decide, by decide, by decide, by decide⟩

/-- C4 (amended): for every statistics state and every next call whose clock reading is
not earlier than the recorded `last_suspend_time` (both being non-negative signed 64-bit
nanosecond counts), provided the total plus the elapsed whole milliseconds stays below
`2 ^ 64`, the value of `total_suspend_time_ms` after the call is greater than or equal
to its value before the call. -/
theorem c4_total_non_decreasing (s : s0ix_stats) (c : pm_call)
    (hlast : 0 ≤ s.last_suspend_time) (hmono : s.last_suspend_time ≤ c.now)
    (hnow : c.now < 2 ^ 63)
    (hfit : s.total_suspend_time_ms
        + ((c.now - s.last_suspend_time) / 1000000).toNat < 2 ^ 64) :
    s.total_suspend_time_ms ≤ (s0ix_pm_ops c s).total_suspend_time_ms := by
  cases c with
  | suspend now => simp [s0ix_pm_ops, s0ix_device_suspend]
  | resume now =>
    simp only [pm_call.now] at hmono hnow hfit
    simp only [s0ix_pm_ops, s0ix_device_resume, resume_duration_ms]
    split_ifs with h
    · rw [duration_forward _ _ hlast hmono hnow, Nat.mod_eq_of_lt hfit]
      omega
    · rw [Nat.add_zero, Nat.mod_eq_of_lt (by omega)]

/-- C4 (amended), instance: with the total at 5 ms and the last suspend at 20 ms, a
resume at 27 ms does not lower the total. -/
theorem c4_total_non_decreasing_witness :
    (run_calls [.suspend 5000000, .resume 10000000, .suspend 20000000]
        s_stats_zeroed).total_suspend_time_ms
      ≤ (s0ix_pm_ops (.resume 27000000)
          (run_calls [.suspend 5000000, .resume 10000000, .suspend 20000000]
            s_stats_zeroed)).total_suspend_time_ms :=
  c4_total_non_decreasing
    (run_calls [.suspend 5000000, .resume 10000000, .suspend 20000000] s_stats_zeroed)
    (.resume 27000000) (by decide) (by decide) (by decide) (by decide)

/-- C5 (as stated, refuted): with the total at 5 ms and the last suspend recorded at
8 ms, a resume whose clock reading is 7 ms computes the duration `2 ^ 64 - 1`, not `0`,
and the total drops to 4 ms. -/
theorem c5_counterexample_negative_delta_wraps :
    (run_calls [.suspend 1000000, .resume 6000000, .suspend 8000000]
        s_stats_zeroed).last_suspend_time = 8000000
    ∧ (run_calls [.suspend 1000000, .resume 6000000, .suspend 8000000]
        s_stats_zeroed).total_suspend_time_ms = 5
    ∧ resume_duration_ms 7000000
        (run_calls [.suspend 1000000, .resume 6000000, .suspend 8000000] s_stats_zeroed)
        = 2 ^ 64 - 1
    ∧ (s0ix_device_resume 7000000
        (run_calls [.suspend 1000000, .resume 6000000, .suspend 8000000]
          s_stats_zeroed)).total_suspend_time_ms = 4 := by
  refine ⟨by decide, by decide, by decide, by decide⟩

/-- C5 (amended): for every statistics state and every non-negative clock reading `now`
earlier than `last_suspend_time`, the resume callback still advances `resume_count` by
one (modulo `2 ^ 64`), but applies no clamp: with `gap` the whole milliseconds between
`now` and `last_suspend_time`, the computed duration is `2 ^ 64 - gap` reduced modulo
`2 ^ 64` (so `0` exactly when the gap is under one millisecond) and the new total is the
old total lowered by `gap` modulo `2 ^ 64`. -/
theorem c5_negative_delta_not_clamped (s : s0ix_stats) (now : Int)
    (hnow : 0 ≤ now) (hback : now < s.last_suspend_time)
    (hlast : s.last_suspend_time < 2 ^ 63) :
    (s0ix_device_resume now s).resume_count = (s.resume_count + 1) % 2 ^ 64
    ∧ resume_duration_ms now s
        = (2 ^ 64 - ((s.last_suspend_time - now) / 1000000).toNat) % 2 ^ 64
    ∧ ((s0ix_device_resume now s).total_suspend_time_ms
          + ((s.last_suspend_time - now) / 1000000).toNat) % 2 ^ 64
        = s.total_suspend_time_ms % 2 ^ 64 := by
  have hne : s.last_suspend_time ≠ 0 := by omega
  have hdur : resume_duration_ms now s
      = (2 ^ 64 - ((s.last_suspend_time - now) / 1000000).toNat) % 2 ^ 64 := by
    simp only [resume_duration_ms, if_pos hne]
    rw [ktime_to_ms_backward _ _ hnow hback hlast]
    unfold to_u64
    omega
  refine ⟨rfl, hdur, ?_⟩
  simp only [s0ix_device_resume]
  rw [hdur]
  omega

/-- C5 (amended), instance: total 5 ms, last suspend at 8 ms, resume read at 7 ms. -/
theorem c5_negative_delta_not_clamped_witness :
    ((s0ix_device_resume 7000000
        { suspend_count := 2, resume_count := 1, total_suspend_time_ms := 5,
          last_suspend_time := 8000000 }).total_suspend_time_ms
      + (((8000000 : Int) - 7000000) / 1000000).toNat) % 2 ^ 64
      = 5 % 2 ^ 64 :=
  (c5_negative_delta_not_clamped
    { suspend_count := 2, resume_count := 1, total_suspend_time_ms := 5,
      last_suspend_time := 8000000 } 7000000 (by decide) (by decide) (by decide)).2.2

/-- C7 (as stated, refuted): two suspends at clock reading `0` followed by a resume at
5 ms add nothing to the total, although 5 ms elapsed since the second suspend. Likewise,
from a state whose total is `2 ^ 64 - 1`, suspends at 1 ms and 2 ms and a resume at 3 ms
leave the total at `0`, not at the old total plus one. -/
theorem c7_counterexample_second_suspend_at_zero :
    (run_calls [.suspend 0, .suspend 0, .resume 5000000]
        s_stats_zeroed).total_suspend_time_ms = 0
    ∧ (((5000000 : Int) - 0) / 1000000).toNat = 5
    ∧ (run_calls [.suspend 0, .suspend 0, .resume 5000000]
        s_stats_zeroed).total_suspend_time_ms
      ≠ s_stats_zeroed.total_suspend_time_ms + (((5000000 : Int) - 0) / 1000000).toNat
    ∧ (run_calls [.suspend 1000000, .suspend 2000000, .resume 3000000]
        { suspend_count := 1, resume_count := 1, total_suspend_time_ms := 2 ^ 64 - 1,
          last_suspend_time := 1000000 }).total_suspend_time_ms = 0 := by
  refine ⟨by decide, by decide, by decide, by decide⟩

/-- C7 (amended): for every state and all clock readings `t1`, `t2`, `t3` with
`0 < t2 ≤ t3 < 2 ^ 63`: suspend at `t1`, suspend at `t2`, resume at `t3` adds to the
total, modulo `2 ^ 64`, exactly the whole milliseconds from `t2` to `t3`; the result is
the same for every other first reading `u1`, so the first interval is discarded;
`suspend_count` has advanced by 2 and `resume_count` by 1, modulo `2 ^ 64`. -/
theorem c7_double_suspend_uses_second (s : s0ix_stats) (t1 t2 t3 : Int)
    (h2 : 0 < t2) (h23 : t2 ≤ t3) (h3 : t3 < 2 ^ 63) :
    (run_calls [.suspend t1, .suspend t2, .resume t3] s).total_suspend_time_ms
        = (s.total_suspend_time_ms + ((t3 - t2) / 1000000).toNat) % 2 ^ 64
    ∧ (∀ u1 : Int,
        (run_calls [.suspend u1, .suspend t2, .resume t3] s).total_suspend_time_ms
          = (run_calls [.suspend t1, .suspend t2, .resume t3] s).total_suspend_time_ms)
    ∧ (run_calls [.suspend t1, .suspend t2, .resume t3] s).suspend_count
        = (s.suspend_count + 2) % 2 ^ 64
    ∧ (run_calls [.suspend t1, .suspend t2, .resume t3] s).resume_count
        = (s.resume_count + 1) % 2 ^ 64 := by
  have hne : t2 ≠ 0 := by omega
  have hdur := duration_forward t2 t3 (by omega) h23 h3
  have htot : ∀ u1 : Int,
      (run_calls [.suspend u1, .suspend t2, .resume t3] s).total_suspend_time_ms
        = (s.total_suspend_time_ms + ((t3 - t2) / 1000000).toNat) % 2 ^ 64 := by
    intro u1
    simp only [run_calls, List.foldl, s0ix_pm_ops, s0ix_device_suspend, s0ix_device_resume,
      resume_duration_ms, if_pos hne, hdur]
  refine ⟨htot t1, fun u1 => by rw [htot u1, htot t1], ?_, ?_⟩
  · simp only [run_calls, List.foldl, s0ix_pm_ops, s0ix_device_suspend, s0ix_device_resume]
    omega
  · simp only [run_calls, List.foldl, s0ix_pm_ops, s0ix_device_suspend, s0ix_device_resume]

/-- C7 (amended), instance: suspends at 1 ms and 4 ms, resume at 9 ms, total grows by 5. -/
theorem c7_double_suspend_uses_second_witness :
    (run_calls [.suspend 1000000, .suspend 4000000, .resume 9000000]
        s_stats_zeroed).total_suspend_time_ms
      = (s_stats_zeroed.total_suspend_time_ms
          + (((9000000 : Int) - 4000000) / 1000000).toNat) % 2 ^ 64 :=
  (c7_double_suspend_uses_second s_stats_zeroed 1000000 4000000 9000000
    (by decide) (by decide) (by decide)).1

/-! ## Claims on module initialisation and exit -/

/-- C8: `s0ix_driver_init` fully succeeds or fully rolls back. Whatever the kernel
answers to the four registration requests: init returns `0` exactly when all four
succeed, and then the driver, the device, the attribute group and the procfs entry are
all registered and nothing was released; otherwise it returns a non-zero error, every
release it makes is legitimate, the releases are the successful registrations in reverse
order, and nothing remains registered. -/
theorem c8_init_all_or_nothing (env : kernel_outcomes) (g : module_globals) :
    ((s0ix_driver_init env g).ret = 0 ↔ env.all_succeed = true)
    ∧ ((s0ix_driver_init env g).ret = 0 →
        ∃ d p,
          (s0ix_driver_init env g).globals.s0ix_platform_device = .obj d
          ∧ (s0ix_driver_init env g).globals.s0ix_proc_entry = .obj p
          ∧ registry.empty.replay (s0ix_driver_init env g).calls
              = some { driver := true, device := some d, sysfs_group := true,
                       proc_entry := some p }
          ∧ (s0ix_driver_init env g).calls.filterMap kcall.acquired
              = [.driver, .device, .sysfs_group, .proc_entry]
          ∧ (s0ix_driver_init env g).calls.filterMap kcall.released = [])
    ∧ ((s0ix_driver_init env g).ret ≠ 0 →
        registry.empty.replay (s0ix_driver_init env g).calls = some registry.empty
        ∧ (s0ix_driver_init env g).calls.filterMap kcall.released
            = ((s0ix_driver_init env g).calls.filterMap kcall.acquired).reverse) := by
  obtain ⟨r1, dv, r3, pc⟩ := env
  by_cases h1 : r1 = 0
  · cases dv with
    | failed e =>
      simp [s0ix_driver_init, kernel_outcomes.all_succeed, h1, device_outcome.ptr, IS_ERR,
        PTR_ERR, registry.replay, registry.step, registry.empty, kcall.acquired,
        kcall.released]
      omega
    | registered d =>
      by_cases h3 : r3 = 0
      · cases pc with
        | failed =>
          simp [s0ix_driver_init, kernel_outcomes.all_succeed, h1, h3, device_outcome.ptr,
            proc_outcome.ptr, IS_ERR, ENOMEM, registry.replay, registry.step, registry.empty,
            kcall.acquired, kcall.released]
        | created p =>
          simp [s0ix_driver_init, kernel_outcomes.all_succeed, h1, h3, device_outcome.ptr,
            proc_outcome.ptr, IS_ERR, registry.replay, registry.step, registry.empty,
            kcall.acquired, kcall.released]
      · simp [s0ix_driver_init, kernel_outcomes.all_succeed, h1, h3, device_outcome.ptr,
          IS_ERR, registry.replay, registry.step, registry.empty, kcall.acquired,
          kcall.released]
  · simp [s0ix_driver_init, kernel_outcomes.all_succeed, h1, registry.replay, registry.step,
      registry.empty, kcall.acquired, kcall.released]

/-- C8, instance: when `proc_create` fails after three successful registrations, init
returns `-ENOMEM`, has released group, device and driver in that order, and nothing
remains registered. -/
theorem c8_init_all_or_nothing_witness :
    registry.empty.replay
        (s0ix_driver_init
          { driver_register := 0, device_register := .registered 7, sysfs_create := 0,
            proc_create := .failed } module_globals.loaded).calls
      = some registry.empty
    ∧ (s0ix_driver_init
          { driver_register := 0, device_register := .registered 7, sysfs_create := 0,
            proc_create := .failed } module_globals.loaded).calls.filterMap kcall.released
      = ((s0ix_driver_init
          { driver_register := 0, device_register := .registered 7, sysfs_create := 0,
            proc_create := .failed } module_globals.loaded).calls.filterMap
              kcall.acquired).reverse :=
  (c8_init_all_or_nothing
    { driver_register := 0, device_register := .registered 7, sysfs_create := 0,
      proc_create := .failed } module_globals.loaded).2.2 (by decide)

/-- After a failed init of a freshly loaded module, whichever request failed,
`s0ix_driver_exit` misuses the kernel: some call of it releases what is not registered. -/
theorem exit_after_failed_init_is_misuse (env : kernel_outcomes)
    (h : (s0ix_driver_init env module_globals.loaded).ret ≠ 0) :
    registry.empty.replay
        ((s0ix_driver_init env module_globals.loaded).calls
          ++ s0ix_driver_exit (s0ix_driver_init env module_globals.loaded).globals)
      = none := by
  obtain ⟨r1, dv, r3, pc⟩ := env
  by_cases h1 : r1 = 0
  · cases dv with
    | failed e =>
      simp [s0ix_driver_init, s0ix_driver_exit, module_globals.loaded, h1,
        device_outcome.ptr, IS_ERR, registry.replay, registry.step, registry.empty]
    | registered d =>
      by_cases h3 : r3 = 0
      · cases pc with
        | failed =>
          simp [s0ix_driver_init, s0ix_driver_exit, module_globals.loaded, h1, h3,
            device_outcome.ptr, proc_outcome.ptr, IS_ERR, registry.replay, registry.step,
            registry.empty]
        | created p =>
          simp [s0ix_driver_init, h1, h3, device_outcome.ptr, proc_outcome.ptr, IS_ERR] at h
      · simp [s0ix_driver_init, s0ix_driver_exit, module_globals.loaded, h1, h3,
          device_outcome.ptr, IS_ERR, registry.replay, registry.step, registry.empty]
  · simp [s0ix_driver_init, s0ix_driver_exit, module_globals.loaded, h1, registry.replay,
      registry.step, registry.empty]

/-- C9 (as stated, refuted): on a freshly loaded module whose device registration fails
with `-ENOMEM`, init returns `-12` having already unregistered the driver, so nothing is
registered, yet it leaves the error pointer in `s0ix_platform_device`; a call of
`s0ix_driver_exit` in that state passes the error pointer to `sysfs_remove_group` and
`platform_device_unregister` and unregisters the driver a second time, and its very first
call is already a release of something that is not registered. -/
theorem c9_counterexample_exit_after_failed_device_registration :
    (s0ix_driver_init
        { driver_register := 0, device_register := .failed 11, sysfs_create := 0,
          proc_create := .created 9 } module_globals.loaded).ret = -12
    ∧ registry.empty.replay
        (s0ix_driver_init
          { driver_register := 0, device_register := .failed 11, sysfs_create := 0,
            proc_create := .created 9 } module_globals.loaded).calls
      = some registry.empty
    ∧ s0ix_driver_exit
        (s0ix_driver_init
          { driver_register := 0, device_register := .failed 11, sysfs_create := 0,
            proc_create := .created 9 } module_globals.loaded).globals
      = [.sysfs_remove_group (.err 11), .platform_device_unregister (.err 11),
         .platform_driver_unregister]
    ∧ registry.empty.step (.sysfs_remove_group (.err 11)) = none
    ∧ registry.empty.step (.platform_device_unregister (.err 11)) = none
    ∧ registry.empty.step .platform_driver_unregister = none
    ∧ registry.empty.replay
        (s0ix_driver_exit
          (s0ix_driver_init
            { driver_register := 0, device_register := .failed 11, sysfs_create := 0,
              proc_create := .created 9 } module_globals.loaded).globals)
      = none := by
  refine ⟨by decide, by decide, by decide, by decide, by decide, by decide, by decide⟩

/-- C9 (amended): `s0ix_driver_exit` is the teardown of a successful init. Whatever the
kernel answered, when `s0ix_driver_init` returned `0` the calls of `s0ix_driver_exit` are
all legitimate, register nothing, release the procfs entry, the attribute group, the
device and the driver, which is the reverse of the order in which init registered them,
and leave nothing registered; when init returned an error, its own rollback has already
left nothing registered, so nothing remains for an exit to release. -/
theorem c9_exit_after_successful_init (env : kernel_outcomes) (g : module_globals) :
    ((s0ix_driver_init env g).ret = 0 →
        registry.empty.replay
            ((s0ix_driver_init env g).calls
              ++ s0ix_driver_exit (s0ix_driver_init env g).globals)
          = some registry.empty
        ∧ (s0ix_driver_exit (s0ix_driver_init env g).globals).filterMap kcall.released
          = [.proc_entry, .sysfs_group, .device, .driver]
        ∧ (s0ix_driver_exit (s0ix_driver_init env g).globals).filterMap kcall.released
          = ((s0ix_driver_init env g).calls.filterMap kcall.acquired).reverse
        ∧ (s0ix_driver_exit (s0ix_driver_init env g).globals).filterMap kcall.acquired = [])
    ∧ ((s0ix_driver_init env g).ret ≠ 0 →
        registry.empty.replay (s0ix_driver_init env g).calls = some registry.empty) := by
  obtain ⟨r1, dv, r3, pc⟩ := env
  by_cases h1 : r1 = 0
  · cases dv with
    | failed e =>
      simp [s0ix_driver_init, h1, device_outcome.ptr, IS_ERR, PTR_ERR, registry.replay,
        registry.step, registry.empty]
      omega
    | registered d =>
      by_cases h3 : r3 = 0
      · cases pc with
        | failed =>
          simp [s0ix_driver_init, h1, h3, device_outcome.ptr, proc_outcome.ptr, IS_ERR,
            ENOMEM, registry.replay, registry.step, registry.empty]
        | created p =>
          simp [s0ix_driver_init, s0ix_driver_exit, h1, h3, device_outcome.ptr,
            proc_outcome.ptr, IS_ERR, registry.replay, registry.step, registry.empty,
            kcall.released, kcall.acquired]
      · simp [s0ix_driver_init, h1, h3, device_outcome.ptr, IS_ERR, registry.replay,
          registry.step, registry.empty]
  · simp [s0ix_driver_init, h1, registry.replay, registry.step, registry.empty]

/-- C9 (amended), instance: after an init in which all four registrations succeed, exit
releases entry, group, device and driver, every call legitimate, and nothing remains
registered. -/
theorem c9_exit_after_successful_init_witness :
    registry.empty.replay
        ((s0ix_driver_init
            { driver_register := 0, device_register := .registered 7, sysfs_create := 0,
              proc_create := .created 9 } module_globals.loaded).calls
          ++ s0ix_driver_exit
              (s0ix_driver_init
                { driver_register := 0, device_register := .registered 7, sysfs_create := 0,
                  proc_create := .created 9 } module_globals.loaded).globals)
      = some registry.empty
    ∧ (s0ix_driver_exit
          (s0ix_driver_init
            { driver_register := 0, device_register := .registered 7, sysfs_create := 0,
              proc_create := .created 9 } module_globals.loaded).globals).filterMap
                kcall.released
      = [.proc_entry, .sysfs_group, .device, .driver] :=
  ⟨((c9_exit_after_successful_init
      { driver_register := 0, device_register := .registered 7, sysfs_create := 0,
        proc_create := .created 9 } module_globals.loaded).1 (by decide)).1,
   ((c9_exit_after_successful_init
      { driver_register := 0, device_register := .registered 7, sysfs_create := 0,
        proc_create := .created 9 } module_globals.loaded).1 (by decide)).2.1⟩

/-! ## Claims on the lock -/

/-- C10 (as stated, refuted): `s0ix_device_resume` calls `msleep(11000)` between taking
`s0ix_device_lock` and releasing it, so it sleeps while the lock is held. -/
theorem c10_counterexample_resume_sleeps_under_lock :
    action.msleep 11000 ∈ steps_under_lock false (s0ix_device_resume_actions s_stats_zeroed)
    ∧ (action.msleep 11000).blocks = true
    ∧ never_blocks_under_lock (s0ix_device_resume_actions s_stats_zeroed) = false := by
  refine ⟨by decide, by decide, by decide⟩

/-- C10 (amended): every operation that takes the statistics lock acquires it once and
releases it once, after the acquisition and before returning. In `s0ix_device_suspend`,
the four attribute reads and the report read, no step performed while the lock is held
sleeps or blocks. In `s0ix_device_resume` the steps under the lock are the counter
update, the timestamp read, the duration arithmetic, the total update and two log lines,
and between those log lines a sleep of 11000 ms, still under the lock. -/
theorem c10_lock_discipline (s : s0ix_stats) :
    (locks_once s0ix_device_suspend_actions = true
      ∧ locks_once (s0ix_device_resume_actions s) = true
      ∧ locks_once suspend_count_show_actions = true
      ∧ locks_once resume_count_show_actions = true
      ∧ locks_once (avg_suspend_time_show_actions s) = true
      ∧ locks_once total_suspend_time_show_actions = true
      ∧ locks_once (s0ix_stats_show_actions s) = true)
    ∧ (never_blocks_under_lock s0ix_device_suspend_actions = true
      ∧ never_blocks_under_lock suspend_count_show_actions = true
      ∧ never_blocks_under_lock resume_count_show_actions = true
      ∧ never_blocks_under_lock (avg_suspend_time_show_actions s) = true
      ∧ never_blocks_under_lock total_suspend_time_show_actions = true
      ∧ never_blocks_under_lock (s0ix_stats_show_actions s) = true)
    ∧ (steps_under_lock false (s0ix_device_resume_actions s)).filter action.blocks
        = [.msleep 11000]
    ∧ steps_under_lock false (s0ix_device_resume_actions s)
        = [.field_update, .ktime_get, .field_read]
          ++ (if s.last_suspend_time ≠ 0 then [.field_read, .arithmetic] else [])
          ++ [.field_update, .pr_info, .msleep 11000, .pr_info] := by
  refine ⟨⟨by decide, ?_, by decide, by decide, ?_, by decide, ?_⟩,
    ⟨by decide, by decide, by decide, ?_, by decide, ?_⟩, ?_, ?_⟩
  · by_cases h : s.last_suspend_time = 0 <;> simp [s0ix_device_resume_actions, h] <;> decide
  · by_cases h : s.resume_count = 0 <;> simp [avg_suspend_time_show_actions, h] <;> decide
  · by_cases h : s.resume_count = 0 <;> simp [s0ix_stats_show_actions, h] <;> decide
  · by_cases h : s.resume_count = 0 <;> simp [avg_suspend_time_show_actions, h] <;> decide
  · by_cases h : s.resume_count = 0 <;> simp [s0ix_stats_show_actions, h] <;> decide
  · by_cases h : s.last_suspend_time = 0 <;> simp [s0ix_device_resume_actions, h] <;> decide
  · by_cases h : s.last_suspend_time = 0 <;> simp [s0ix_device_resume_actions, h] <;> decide

end S0ix
